import Mathlib

/-!
Verification development for the InteriorAI single-page application
(`src/index.tsx`). The React component's state hooks are embedded as an
explicit `AppState` record, and each event handler becomes a pure state
transition. Pixel coordinates and sizes (JS numbers) are embedded as
rationals; external services (description generation, harmonization
generation, image loading, the canvas 2d context) are passed in as explicit
outcome parameters, mirroring exactly how the handlers consume them.
-/

namespace InteriorAI

/-- The `Product` interface (src/index.tsx lines 7-16): a placed product. -/
structure Product where
  id : Nat
  src : String
  x : ℚ
  y : ℚ
  width : ℚ
  height : ℚ
  aspectRatio : ℚ
  description : String
deriving Repr, DecidableEq, Inhabited

/-- An entry of `availableProducts` (line 29): `{ src, description }`. -/
structure CatalogEntry where
  src : String
  description : String
deriving Repr, DecidableEq, Inhabited

/-- The shape of `previousState` (line 36): `{ displayImage, placedProducts }`. -/
structure Snapshot where
  displayImage : Option String
  placedProducts : List Product
deriving Repr, DecidableEq

/-- The rotating loading messages (lines 18-24); cosmetic state. -/
def loadingMessages : List String :=
  ["Harmonizing your design...",
   "Adjusting lighting and shadows...",
   "Blending colors for a natural look...",
   "Analyzing perspective...",
   "Adding the finishing touches..."]

/-- All React state hooks of `App` (lines 27-37) gathered in one record. -/
structure AppState where
  originalRoomImage : Option String
  displayImage : Option String
  availableProducts : List CatalogEntry
  placedProducts : List Product
  selectedProductId : Option Nat
  isLoading : Bool
  isProcessingProducts : Bool
  loadingMessage : String
  error : Option String
  previousState : Option Snapshot
  userInstructions : String
deriving Repr, DecidableEq

/-- The initial hook values (lines 27-37). -/
def initialState : AppState :=
  { originalRoomImage := none
    displayImage := none
    availableProducts := []
    placedProducts := []
    selectedProductId := none
    isLoading := false
    isProcessingProducts := false
    loadingMessage := loadingMessages.headI
    error := none
    previousState := none
    userInstructions := "" }

/-- JS falsiness of an optional string value (`!x` for `x : string | null |
undefined`): true when the value is absent or the empty string. -/
def strFalsy : Option String → Bool
  | none => true
  | some s => s.isEmpty

/-! ### Room upload (lines 85-89) -/

/-- `handleRoomUpload` (lines 85-89): sets `originalRoomImage` and
`displayImage` to `urls[0]` and clears the placements. -/
def handleRoomUpload (urls : List String) (s : AppState) : AppState :=
  { s with
    originalRoomImage := urls.head?
    displayImage := urls.head?
    placedProducts := [] }

/-! ### Product catalog ingest (lines 91-125) -/

/-- The error message set when the catalog batch fails (line 121). -/
def productUploadErrorMsg : String :=
  "Could not generate product descriptions. Please try again."

/-- Scan for the regex `/:(.*?);/` (line 98) over the characters of a data
URL: the group is the text between the first colon that is followed by a
semicolon and the first semicolon after it; `none` when no such pair exists. -/
def mimeOfChars : List Char → Option (List Char)
  | [] => none
  | c :: rest =>
    if c = ':' then
      if rest.contains ';' then some (rest.takeWhile fun d => d ≠ ';')
      else mimeOfChars rest
    else mimeOfChars rest

/-- `url.match(/:(.*?);/)?.[1]` (line 98). -/
def mimeOf (url : String) : Option String :=
  (mimeOfChars url.data).map fun cs => String.mk cs

/-- Scan for `url.split(',')[1]` (line 97) over the characters of the URL:
the text between the first comma and the next comma (or the end); `none`
(JS `undefined`) when the URL has no comma. -/
def base64PartChars : List Char → Option (List Char)
  | [] => none
  | c :: rest =>
    if c = ',' then some (rest.takeWhile fun d => d ≠ ',')
    else base64PartChars rest

/-- `url.split(',')[1]` (line 97). -/
def base64Part (url : String) : Option String :=
  (base64PartChars url.data).map fun cs => String.mk cs

/-- The body of the `urls.map` callback in `handleProductUpload` (lines
96-116). `svc base64Data mimeType` is the external description request
(`ai.models.generateContent`, line 104), returning the response text or
throwing. An unparsable data URL (`!base64Data || !mimeType`, line 99)
degrades to the fallback entry `{ src, description := "a product" }`
without issuing a request; otherwise the request's text is trimmed into
the entry. -/
def describeProduct (svc : String → String → Except String String)
    (url : String) : Except String CatalogEntry :=
  let base64Data := base64Part url
  let mimeType := mimeOf url
  match base64Data, mimeType with
  | some b, some m =>
    if b.isEmpty || m.isEmpty then Except.ok { src := url, description := "a product" }
    else (svc b m).map fun t => { src := url, description := t.trim }
  | _, _ => Except.ok { src := url, description := "a product" }

/-- `Promise.all` over settled outcomes: the list of all results in input
order when every element resolved, otherwise a rejection. -/
def promiseAll {ε α : Type} : List (Except ε α) → Except ε (List α)
  | [] => Except.ok []
  | Except.error e :: _ => Except.error e
  | Except.ok a :: rest => (promiseAll rest).map fun as => a :: as

/-- `handleProductUpload` (lines 91-125): sets the processing flag, clears
the error, awaits all description requests; on success appends the new
entries to `availableProducts`, on any rejection sets the batch error
message and appends nothing; the processing flag is cleared either way
(the `finally` block). -/
def handleProductUpload (svc : String → String → Except String String)
    (urls : List String) (s : AppState) : AppState :=
  let s1 := { s with isProcessingProducts := true, error := none }
  match promiseAll (urls.map (describeProduct svc)) with
  | Except.ok newProducts =>
    { s1 with
      availableProducts := s1.availableProducts ++ newProducts
      isProcessingProducts := false }
  | Except.error _ =>
    { s1 with
      error := some productUploadErrorMsg
      isProcessingProducts := false }

/-! ### Drop: placement creation (lines 131-158) -/

/-- The `newProduct` object built in `handleDrop`'s `img.onload` callback
(lines 143-153). `now` is the `Date.now()` reading (line 145); `imgWidth`
and `imgHeight` are the decoded image's dimensions (line 143). -/
def newProductOfDrop (now : Nat) (src description : String)
    (clientX clientY rectLeft rectTop imgWidth imgHeight : ℚ) : Product :=
  let aspectRatio := imgWidth / imgHeight
  { id := now
    src := src
    description := description
    x := clientX - rectLeft - 75
    y := clientY - rectTop - (75 / aspectRatio) / 2
    width := 150
    height := 150 / aspectRatio
    aspectRatio := aspectRatio }

/-- `handleDrop` (lines 131-158) after the image has loaded: appends the
new product to `placedProducts` and selects it. -/
def handleDrop (now : Nat) (src description : String)
    (clientX clientY rectLeft rectTop imgWidth imgHeight : ℚ)
    (s : AppState) : AppState :=
  let newProduct := newProductOfDrop now src description
    clientX clientY rectLeft rectTop imgWidth imgHeight
  { s with
    placedProducts := s.placedProducts ++ [newProduct]
    selectedProductId := some newProduct.id }

/-- One drop event with the inputs `handleDrop` reads from the browser. -/
structure DropEvent where
  now : Nat
  src : String
  description : String
  clientX : ℚ
  clientY : ℚ
  rectLeft : ℚ
  rectTop : ℚ
  imgWidth : ℚ
  imgHeight : ℚ
deriving Repr, DecidableEq

/-- The product a drop event creates. -/
def dropEventProduct (e : DropEvent) : Product :=
  newProductOfDrop e.now e.src e.description
    e.clientX e.clientY e.rectLeft e.rectTop e.imgWidth e.imgHeight

/-- Run a sequence of drop events against a state. -/
def runDrops (events : List DropEvent) (s : AppState) : AppState :=
  match events with
  | [] => s
  | e :: rest =>
    runDrops rest (handleDrop e.now e.src e.description
      e.clientX e.clientY e.rectLeft e.rectTop e.imgWidth e.imgHeight s)

/-! ### Drag interaction (lines 42-51, 160-207) -/

/-- The `'move' | 'resize'` tag of `interactionState` (line 43). -/
inductive InteractionType
  | move
  | resize
deriving Repr, DecidableEq

/-- The `interactionState` ref captured by `handleMouseDown` (lines
42-51, 166-175): gesture-start pointer position and the target's starting
position and size. -/
structure InteractionState where
  type : InteractionType
  productId : Nat
  startX : ℚ
  startY : ℚ
  startLeft : ℚ
  startTop : ℚ
  startWidth : ℚ
  startHeight : ℚ
deriving Repr, DecidableEq

/-- The body of the `prev.map` callback in `handleMouseMove` (lines
188-200): on the target product, a move sets the position from the
gesture-start position plus the cumulative delta; a resize sets
`newWidth = startWidth + dx`, `newHeight = newWidth / aspectRatio`, each
clamped independently (width at 20, height at `20 / aspectRatio`, lines
194-196). Every other product is returned unchanged. -/
def applyInteraction (ist : InteractionState) (dx dy : ℚ) (p : Product) : Product :=
  if p.id = ist.productId then
    match ist.type with
    | InteractionType.move =>
      { p with x := ist.startLeft + dx, y := ist.startTop + dy }
    | InteractionType.resize =>
      let newWidth := ist.startWidth + dx
      let newHeight := newWidth / p.aspectRatio
      { p with
        width := if newWidth > 20 then newWidth else 20
        height := if newHeight > 20 / p.aspectRatio then newHeight else 20 / p.aspectRatio }
  else p

/-- `handleMouseMove` (lines 181-201) with an active interaction: the
cumulative deltas from the gesture-start pointer position are applied to
every product via the map callback. -/
def handleMouseMove (ist : InteractionState) (clientX clientY : ℚ)
    (prods : List Product) : List Product :=
  prods.map (applyInteraction ist (clientX - ist.startX) (clientY - ist.startY))

/-! ### Undo and its availability (lines 220-226, 459-461) -/

/-- `handleUndo` (lines 220-226): when a snapshot exists, restore
`displayImage` and `placedProducts` from it and clear it; otherwise no-op. -/
def handleUndo (s : AppState) : AppState :=
  match s.previousState with
  | some prev =>
    { s with
      displayImage := prev.displayImage
      placedProducts := prev.placedProducts
      previousState := none }
  | none => s

/-- The render condition of the Undo button (lines 459-461):
`previousState && placedProducts.length === 0 && !isLoading`. -/
def undoOffered (s : AppState) : Bool :=
  s.previousState.isSome && s.placedProducts.isEmpty && !s.isLoading

/-! ### Harmonize (lines 238-322) -/

/-- The precondition error message (line 240). -/
def harmonizeGuardMsg : String :=
  "Please add a product to the room before harmonizing."

/-- The catch-all harmonize error message (line 318). -/
def harmonizeFailMsg : String :=
  "Sorry, we couldn\x27t harmonize your image. Please try again."

/-- `inlineData` of a generation response part (lines 307-310). -/
structure InlineData where
  data : String
  mimeType : String
deriving Repr, DecidableEq

/-- One part of `response.candidates[0].content.parts` (line 307). -/
structure RespPart where
  inlineData : Option InlineData
  text : Option String
deriving Repr, DecidableEq

/-- The external effects `handleHarmonize` consumes: whether
`canvas.getContext('2d')` and `imageRef.current` are available (line 251),
the base image's natural and client dimensions (line 256), the per-source
outcome of product image loading (lines 266-275), and the settled outcome
of the generation request (lines 294-305), as its candidate parts. -/
structure HarmonizeEnv where
  ctxAvailable : Bool
  imageRefSet : Bool
  naturalWidth : ℚ
  naturalHeight : ℚ
  clientWidth : ℚ
  clientHeight : ℚ
  loadOk : String → Bool
  genResponse : Except String (List RespPart)

/-- `handleHarmonize` (lines 238-322) as a state transition; the returned
boolean records whether the generation request was issued. Guard: falsy
`displayImage` or zero placements sets the precondition message and
returns. Otherwise the snapshot is stored, loading starts and the error is
cleared; any throw in the try block (missing context or image ref, a
product image failing to load, the request rejecting, or the response
lacking an inline-image part) is caught, setting the catch-all message;
`finally` clears the loading flag. On success the display image becomes
the returned data URL and the placements are cleared. -/
def handleHarmonize (env : HarmonizeEnv) (s : AppState) : AppState × Bool :=
  if strFalsy s.displayImage || s.placedProducts.isEmpty then
    ({ s with error := some harmonizeGuardMsg }, false)
  else
    let s1 := { s with
      previousState := some { displayImage := s.displayImage, placedProducts := s.placedProducts }
      isLoading := true
      error := none }
    if !(env.ctxAvailable && env.imageRefSet) then
      ({ s1 with error := some harmonizeFailMsg, isLoading := false }, false)
    else if !(s.placedProducts.all fun p => env.loadOk p.src) then
      ({ s1 with error := some harmonizeFailMsg, isLoading := false }, false)
    else
      match env.genResponse with
      | Except.error _ =>
        ({ s1 with error := some harmonizeFailMsg, isLoading := false }, true)
      | Except.ok parts =>
        match parts.find? fun part => part.inlineData.isSome with
        | some part =>
          match part.inlineData with
          | some d =>
            ({ s1 with
               displayImage := some ("data:" ++ d.mimeType ++ ";base64," ++ d.data)
               placedProducts := []
               isLoading := false }, true)
          | none =>
            ({ s1 with error := some harmonizeFailMsg, isLoading := false }, true)
        | none =>
          ({ s1 with error := some harmonizeFailMsg, isLoading := false }, true)

/-! ### Composite building (lines 249-282) -/

/-- One `ctx.drawImage(productImg, x, y, w, h)` call (line 279). -/
structure DrawCmd where
  src : String
  x : ℚ
  y : ℚ
  w : ℚ
  h : ℚ
deriving Repr, DecidableEq

/-- The draw call issued for one product (line 279), with
`scaleX = naturalWidth / clientWidth` and
`scaleY = naturalHeight / clientHeight` (lines 263-264). -/
def drawCmdOf (naturalWidth naturalHeight clientWidth clientHeight : ℚ)
    (p : Product) : DrawCmd :=
  let scaleX := naturalWidth / clientWidth
  let scaleY := naturalHeight / clientHeight
  { src := p.src
    x := p.x * scaleX
    y := p.y * scaleY
    w := p.width * scaleX
    h := p.height * scaleY }

/-- The sequence of product draw calls of `handleHarmonize` (lines
277-280): one per placed product, in list (insertion) order. -/
def buildCompositeCmds (naturalWidth naturalHeight clientWidth clientHeight : ℚ)
    (placedProducts : List Product) : List DrawCmd :=
  placedProducts.map (drawCmdOf naturalWidth naturalHeight clientWidth clientHeight)

/-- Whether a draw call paints the pixel at `pt` (its axis-aligned target
rectangle contains the point). -/
def covers (c : DrawCmd) (pt : ℚ × ℚ) : Bool :=
  decide (c.x ≤ pt.1) && decide (pt.1 < c.x + c.w) &&
  decide (c.y ≤ pt.2) && decide (pt.2 < c.y + c.h)

/-- Sequential canvas semantics of the draw calls: each call overpaints
what is already there, so the pixel at `pt` shows the last call covering
it (`none` when only the background room image shows). -/
def renderAt (cmds : List DrawCmd) (pt : ℚ × ℚ) : Option DrawCmd :=
  cmds.foldl (fun acc c => if covers c pt then some c else acc) none

/-! ### Concrete sample values used to instantiate the theorems below -/

/-- A placed product with a 2:1 aspect ratio. -/
def sampleProduct : Product :=
  { id := 1, src := "imgA", x := 10, y := 20, width := 150, height := 75,
    aspectRatio := 2, description := "a modern yellow armchair" }

/-- A second placed product with a 1:1 aspect ratio. -/
def sampleProductB : Product :=
  { id := 2, src := "imgB", x := 0, y := 0, width := 40, height := 40,
    aspectRatio := 1, description := "a rustic wooden coffee table" }

/-- A resize gesture targeting `sampleProduct`. -/
def sampleResize : InteractionState :=
  { type := InteractionType.resize, productId := 1, startX := 0, startY := 0,
    startLeft := 10, startTop := 20, startWidth := 150, startHeight := 75 }

/-- A move gesture targeting `sampleProduct`. -/
def sampleMove : InteractionState :=
  { type := InteractionType.move, productId := 1, startX := 0, startY := 0,
    startLeft := 10, startTop := 20, startWidth := 150, startHeight := 75 }

/-- A session with a room image and one placed product. -/
def sampleState : AppState :=
  { initialState with
    originalRoomImage := some "room"
    displayImage := some "room"
    placedProducts := [sampleProduct] }

/-- A session with a room image and no placements. -/
def guardState : AppState :=
  { initialState with
    originalRoomImage := some "room"
    displayImage := some "room" }

/-- A snapshot as taken by a successful harmonize. -/
def sampleSnapshot : Snapshot :=
  { displayImage := some "room", placedProducts := [sampleProduct] }

/-- A post-harmonize session: new display image, no placements, snapshot
present. -/
def undoState : AppState :=
  { initialState with
    originalRoomImage := some "room"
    displayImage := some "harmonized"
    previousState := some sampleSnapshot }

/-- A harmonize environment whose generation request rejects. -/
def sampleEnvFail : HarmonizeEnv :=
  { ctxAvailable := true, imageRefSet := true,
    naturalWidth := 1000, naturalHeight := 800,
    clientWidth := 500, clientHeight := 400,
    loadOk := fun _ => true,
    genResponse := Except.error "network" }

/-- A description service that always throws. -/
def sampleSvcFail : String → String → Except String String :=
  fun _ _ => Except.error "boom"

/-- A description service that always resolves. -/
def sampleSvcOk : String → String → Except String String :=
  fun _ _ => Except.ok "a red sofa"

/-- A well-formed product data URL. -/
def sampleUrl : String := "data:image/png;base64,AAAA"

/-- A drop event at clock reading 5. -/
def sampleDropA : DropEvent :=
  { now := 5, src := "imgA", description := "d1", clientX := 0, clientY := 0,
    rectLeft := 0, rectTop := 0, imgWidth := 1, imgHeight := 1 }

/-- Another drop event at the same clock reading 5. -/
def sampleDropB : DropEvent :=
  { now := 5, src := "imgB", description := "d2", clientX := 0, clientY := 0,
    rectLeft := 0, rectTop := 0, imgWidth := 1, imgHeight := 1 }

/-- A drop event at the later clock reading 7. -/
def sampleDropC : DropEvent :=
  { now := 7, src := "imgC", description := "d3", clientX := 0, clientY := 0,
    rectLeft := 0, rectTop := 0, imgWidth := 1, imgHeight := 1 }

/-! ### Helper lemmas -/

/-- `promiseAll` over a list of resolved outcomes resolves to the results
in order. -/
theorem promiseAll_map_ok {ε α : Type} (as : List α) :
    promiseAll (ε := ε) (as.map Except.ok) = Except.ok as := by
  induction as with
  | nil => rfl
  | cons a rest ih => simp [promiseAll, ih, Except.map]

/-- If any element of the batch rejected, `promiseAll` rejects. -/
theorem promiseAll_error_of_mem {ε α : Type} {l : List (Except ε α)} {e : ε}
    (h : Except.error e ∈ l) : ∃ d, promiseAll l = Except.error d := by
  induction l with
  | nil => simp at h
  | cons x rest ih =>
    cases x with
    | error d => exact ⟨d, rfl⟩
    | ok a =>
      have hx : Except.error e ∈ rest := by
        rcases List.mem_cons.mp h with h1 | h1
        · exact absurd h1 (by simp)
        · exact h1
      obtain ⟨d, hd⟩ := ih hx
      exact ⟨d, by simp [promiseAll, hd, Except.map]⟩

/-- Draw calls that do not cover a pixel leave it untouched. -/
theorem foldl_draw_no_cover (pt : ℚ × ℚ) (post : List DrawCmd)
    (acc : Option DrawCmd) (h : ∀ q ∈ post, covers q pt = false) :
    post.foldl (fun acc c => if covers c pt then some c else acc) acc = acc := by
  induction post generalizing acc with
  | nil => rfl
  | cons q rest ih =>
    have hq := h q (List.mem_cons_self q rest)
    simp only [List.foldl_cons, hq, Bool.false_eq_true, if_false]
    exact ih acc fun r hr => h r (List.mem_cons_of_mem q hr)

/-- The last draw call covering a pixel determines it. -/
theorem renderAt_last_cover (pre post : List DrawCmd) (c : DrawCmd)
    (pt : ℚ × ℚ) (hc : covers c pt = true)
    (hpost : ∀ q ∈ post, covers q pt = false) :
    renderAt (pre ++ c :: post) pt = some c := by
  unfold renderAt
  rw [List.foldl_append, List.foldl_cons, hc]
  simp only [if_true]
  exact foldl_draw_no_cover pt post (some c) hpost

/-- Running a sequence of drops appends the created products in event
order. -/
theorem runDrops_placedProducts (events : List DropEvent) (s : AppState) :
    (runDrops events s).placedProducts =
      s.placedProducts ++ events.map dropEventProduct := by
  induction events generalizing s with
  | nil => simp [runDrops]
  | cons e rest ih =>
    simp [runDrops, ih, handleDrop, dropEventProduct, List.append_assoc]

/-- The id of a dropped product is the clock reading of its drop event. -/
theorem dropEventProduct_id (e : DropEvent) : (dropEventProduct e).id = e.now := rfl

/-! ### Claim theorems -/

/-- C2: with an active move gesture, `handleMouseMove` maps the placement
collection so that only the target placement changes, and only in its
position fields, which become the gesture-start position plus the
cumulative pointer delta; every other placement, and every non-position
field of the target, is returned unchanged. -/
theorem move_changes_only_position (ist : InteractionState) (clientX clientY : ℚ)
    (prods : List Product) (hty : ist.type = InteractionType.move) :
    handleMouseMove ist clientX clientY prods =
      prods.map fun p =>
        if p.id = ist.productId then
          { p with x := ist.startLeft + (clientX - ist.startX),
                   y := ist.startTop + (clientY - ist.startY) }
        else p := by
  unfold handleMouseMove
  refine congrArg (fun f => prods.map f) (funext fun p => ?_)
  simp only [applyInteraction, hty]

/-- Witness for C2 at a concrete gesture and collection. -/
theorem move_changes_only_position_witness :
    sampleMove.type = InteractionType.move ∧
    handleMouseMove sampleMove 7 9 [sampleProduct, sampleProductB] =
      [sampleProduct, sampleProductB].map fun p =>
        if p.id = sampleMove.productId then
          { p with x := sampleMove.startLeft + (7 - sampleMove.startX),
                   y := sampleMove.startTop + (9 - sampleMove.startY) }
        else p :=
  ⟨rfl, move_changes_only_position sampleMove 7 9 [sampleProduct, sampleProductB] rfl⟩

/-- C6: calling harmonize with zero placements or no display image set
fails immediately with the precondition message; the returned state equals
the input state with only the error field changed, and the generation
request is not issued. -/
theorem harmonize_guard_no_network (env : HarmonizeEnv) (s : AppState)
    (h : s.placedProducts = [] ∨ s.displayImage = none) :
    handleHarmonize env s = ({ s with error := some harmonizeGuardMsg }, false) := by
  unfold handleHarmonize
  rcases h with h | h
  · simp [h]
  · simp [h, strFalsy]

/-- Witness for C6: a room is loaded but no product has been placed. -/
theorem harmonize_guard_no_network_witness :
    guardState.placedProducts = [] ∧
    handleHarmonize sampleEnvFail guardState =
      ({ guardState with error := some harmonizeGuardMsg }, false) :=
  ⟨rfl, harmonize_guard_no_network sampleEnvFail guardState (Or.inl rfl)⟩

/-- C7: the Undo control is offered only when a snapshot exists and there
are zero placements; invoking undo with a snapshot present restores the
display image and the placements exactly from the snapshot and clears the
snapshot, after which undo is no longer offered. -/
theorem undo_gating_and_restore (s : AppState) :
    (undoOffered s = true → s.previousState.isSome = true ∧ s.placedProducts = []) ∧
    (∀ prev, s.previousState = some prev →
      handleUndo s = { s with displayImage := prev.displayImage,
                              placedProducts := prev.placedProducts,
                              previousState := none } ∧
      undoOffered (handleUndo s) = false) := by
  constructor
  · intro h
    rw [undoOffered, Bool.and_eq_true, Bool.and_eq_true] at h
    refine ⟨h.1.1, ?_⟩
    have h2 := h.1.2
    rwa [List.isEmpty_iff] at h2
  · intro prev hprev
    constructor
    · simp [handleUndo, hprev]
    · simp [handleUndo, hprev, undoOffered]

/-- Witness for C7 at a post-harmonize session. -/
theorem undo_gating_and_restore_witness :
    undoOffered undoState = true ∧
    (undoState.previousState.isSome = true ∧ undoState.placedProducts = []) ∧
    undoState.previousState = some sampleSnapshot ∧
    (handleUndo undoState =
      { undoState with displayImage := sampleSnapshot.displayImage,
                       placedProducts := sampleSnapshot.placedProducts,
                       previousState := none } ∧
     undoOffered (handleUndo undoState) = false) :=
  ⟨rfl, (undo_gating_and_restore undoState).1 rfl, rfl,
   (undo_gating_and_restore undoState).2 sampleSnapshot rfl⟩

/-- C10: loading a new room image clears the placements and sets both
`originalRoomImage` and `displayImage` to the uploaded URL, while leaving
the snapshot, the error message and the selection unchanged; if undo was
offered before the upload it is still offered afterwards, and invoking it
restores the snapshotted display image and placements. -/
theorem room_upload_frame (urls : List String) (s : AppState) :
    (handleRoomUpload urls s).placedProducts = [] ∧
    (handleRoomUpload urls s).originalRoomImage = urls.head? ∧
    (handleRoomUpload urls s).displayImage = urls.head? ∧
    (handleRoomUpload urls s).previousState = s.previousState ∧
    (handleRoomUpload urls s).error = s.error ∧
    (handleRoomUpload urls s).selectedProductId = s.selectedProductId ∧
    (undoOffered s = true →
      undoOffered (handleRoomUpload urls s) = true ∧
      ∀ prev, s.previousState = some prev →
        handleUndo (handleRoomUpload urls s) =
          { handleRoomUpload urls s with
            displayImage := prev.displayImage
            placedProducts := prev.placedProducts
            previousState := none }) := by
  refine ⟨rfl, rfl, rfl, rfl, rfl, rfl, ?_⟩
  intro h
  rw [undoOffered, Bool.and_eq_true, Bool.and_eq_true] at h
  constructor
  · rw [undoOffered]
    simp [handleRoomUpload, h.1.1, h.2]
  · intro prev hprev
    simp [handleUndo, handleRoomUpload, hprev]

/-- Witness for C10: a new room is loaded right after a harmonize. -/
theorem room_upload_frame_witness :
    undoOffered undoState = true ∧
    (handleRoomUpload ["newroom"] undoState).placedProducts = [] ∧
    (handleRoomUpload ["newroom"] undoState).displayImage = some "newroom" ∧
    (handleRoomUpload ["newroom"] undoState).previousState = undoState.previousState ∧
    undoOffered (handleRoomUpload ["newroom"] undoState) = true ∧
    handleUndo (handleRoomUpload ["newroom"] undoState) =
      { handleRoomUpload ["newroom"] undoState with
        displayImage := sampleSnapshot.displayImage
        placedProducts := sampleSnapshot.placedProducts
        previousState := none } :=
  ⟨rfl,
   (room_upload_frame ["newroom"] undoState).1,
   (room_upload_frame ["newroom"] undoState).2.2.1,
   (room_upload_frame ["newroom"] undoState).2.2.2.1,
   ((room_upload_frame ["newroom"] undoState).2.2.2.2.2.2 rfl).1,
   ((room_upload_frame ["newroom"] undoState).2.2.2.2.2.2 rfl).2 sampleSnapshot rfl⟩

/-- C1: with an active resize gesture on a placement with positive aspect
ratio, the updated placement has width `max (startWidth + deltaX) 20` and
height `width / aspectRatio`; in particular the width never drops below 20
nor the height below `20 / aspectRatio`, and the aspect ratio itself is
unchanged. -/
theorem resize_clamps_and_keeps_aspect (ist : InteractionState)
    (clientX clientY : ℚ) (prods : List Product) (p : Product)
    (hty : ist.type = InteractionType.resize) (hmem : p ∈ prods)
    (hid : p.id = ist.productId) (ha : 0 < p.aspectRatio) :
    ∃ q ∈ handleMouseMove ist clientX clientY prods,
      q.width = max (ist.startWidth + (clientX - ist.startX)) 20 ∧
      q.height = q.width / q.aspectRatio ∧
      q.aspectRatio = p.aspectRatio ∧
      20 ≤ q.width ∧ 20 / p.aspectRatio ≤ q.height := by
  refine ⟨applyInteraction ist (clientX - ist.startX) (clientY - ist.startY) p,
    List.mem_map_of_mem _ hmem, ?_⟩
  simp only [applyInteraction, hid, if_true, hty]
  by_cases hgt : (20 : ℚ) < ist.startWidth + (clientX - ist.startX)
  · have hgtd : (20 : ℚ) / p.aspectRatio
        < (ist.startWidth + (clientX - ist.startX)) / p.aspectRatio :=
      (div_lt_div_iff_of_pos_right ha).mpr hgt
    rw [if_pos hgt, if_pos hgtd]
    exact ⟨(max_eq_left hgt.le).symm, rfl, trivial, hgt.le, hgtd.le⟩
  · have hle : ist.startWidth + (clientX - ist.startX) ≤ 20 := not_lt.mp hgt
    have hled : ¬ ((20 : ℚ) / p.aspectRatio
        < (ist.startWidth + (clientX - ist.startX)) / p.aspectRatio) := by
      rw [div_lt_div_iff_of_pos_right ha]
      exact hgt
    rw [if_neg hgt, if_neg hled]
    exact ⟨(max_eq_right hle).symm, rfl, trivial, le_refl _, le_refl _⟩

/-- Witness for C1: a drag 1000 pixels to the left still leaves width 20
and height 10. -/
theorem resize_clamps_and_keeps_aspect_witness :
    sampleResize.type = InteractionType.resize ∧
    sampleProduct ∈ [sampleProduct] ∧
    sampleProduct.id = sampleResize.productId ∧
    (0 : ℚ) < sampleProduct.aspectRatio ∧
    (∃ q ∈ handleMouseMove sampleResize (-1000) 0 [sampleProduct],
      q.width = max (sampleResize.startWidth + (-1000 - sampleResize.startX)) 20 ∧
      q.height = q.width / q.aspectRatio ∧
      q.aspectRatio = sampleProduct.aspectRatio ∧
      20 ≤ q.width ∧ 20 / sampleProduct.aspectRatio ≤ q.height) :=
  ⟨rfl, List.mem_singleton.mpr rfl, rfl, by decide,
   resize_clamps_and_keeps_aspect sampleResize (-1000) 0 [sampleProduct]
     sampleProduct rfl (List.mem_singleton.mpr rfl) rfl (by decide)⟩

/-- C3: the composite draws one command per placement, in insertion order,
with position and size scaled by `naturalWidth / clientWidth` and
`naturalHeight / clientHeight`; under sequential canvas semantics, a
placement covering a pixel such that no later placement covers it
determines that pixel, i.e. later placements overpaint earlier ones. -/
theorem composite_draw_order_and_scaling (nW nH cW cH : ℚ) (ps : List Product) :
    buildCompositeCmds nW nH cW cH ps =
      ps.map (fun p =>
        { src := p.src, x := p.x * (nW / cW), y := p.y * (nH / cH),
          w := p.width * (nW / cW), h := p.height * (nH / cH) }) ∧
    ∀ pre post (p : Product) (pt : ℚ × ℚ),
      ps = pre ++ p :: post →
      covers (drawCmdOf nW nH cW cH p) pt = true →
      (∀ q ∈ post, covers (drawCmdOf nW nH cW cH q) pt = false) →
      renderAt (buildCompositeCmds nW nH cW cH ps) pt =
        some (drawCmdOf nW nH cW cH p) := by
  constructor
  · rfl
  · intro pre post p pt hps hc hpost
    subst hps
    rw [buildCompositeCmds, List.map_append, List.map_cons]
    refine renderAt_last_cover _ _ _ _ hc ?_
    intro c hcmem
    obtain ⟨q, hq, rfl⟩ := List.mem_map.mp hcmem
    exact hpost q hq

/-- Witness for C3: the later-dropped product owns the overlapped pixel. -/
theorem composite_draw_order_and_scaling_witness :
    covers (drawCmdOf 2 2 1 1 sampleProductB) (10, 10) = true ∧
    renderAt (buildCompositeCmds 2 2 1 1 [sampleProduct, sampleProductB]) (10, 10) =
      some (drawCmdOf 2 2 1 1 sampleProductB) :=
  ⟨by norm_num [covers, drawCmdOf, sampleProductB],
   (composite_draw_order_and_scaling 2 2 1 1 [sampleProduct, sampleProductB]).2
     [sampleProduct] [] sampleProductB (10, 10) rfl
     (by norm_num [covers, drawCmdOf, sampleProductB])
     (fun q hq => absurd hq (List.not_mem_nil q))⟩

/-- C4: catalog ingest is all-or-nothing: if any description request in
the batch throws, the catalog is unchanged and the single batch error
message is surfaced; when every request resolves, the resulting entries
are appended to the catalog in input order and no error is set. -/
theorem product_upload_batch_atomic (svc : String → String → Except String String)
    (urls : List String) (s : AppState) :
    ((∃ u ∈ urls, ∃ e, describeProduct svc u = Except.error e) →
      (handleProductUpload svc urls s).availableProducts = s.availableProducts ∧
      (handleProductUpload svc urls s).error = some productUploadErrorMsg) ∧
    (∀ entries : List CatalogEntry,
      urls.map (describeProduct svc) = entries.map Except.ok →
      (handleProductUpload svc urls s).availableProducts
          = s.availableProducts ++ entries ∧
      (handleProductUpload svc urls s).error = none) := by
  constructor
  · rintro ⟨u, hu, e, he⟩
    have hmem : Except.error e ∈ urls.map (describeProduct svc) :=
      he ▸ List.mem_map_of_mem (describeProduct svc) hu
    obtain ⟨d, hd⟩ := promiseAll_error_of_mem hmem
    constructor <;> simp [handleProductUpload, hd]
  · intro entries hmap
    constructor <;> simp [handleProductUpload, hmap, promiseAll_map_ok]

/-- Witness for C4: a one-element batch whose request throws adds nothing
and sets the error; the same batch with a resolving request appends the
described entry. -/
theorem product_upload_batch_atomic_witness :
    (∃ u ∈ [sampleUrl], ∃ e, describeProduct sampleSvcFail u = Except.error e) ∧
    ((handleProductUpload sampleSvcFail [sampleUrl] initialState).availableProducts
        = initialState.availableProducts ∧
     (handleProductUpload sampleSvcFail [sampleUrl] initialState).error
        = some productUploadErrorMsg) ∧
    ([sampleUrl].map (describeProduct sampleSvcOk)
        = [({ src := sampleUrl, description := ("a red sofa").trim } : CatalogEntry)].map Except.ok) ∧
    ((handleProductUpload sampleSvcOk [sampleUrl] initialState).availableProducts
        = initialState.availableProducts
            ++ [{ src := sampleUrl, description := ("a red sofa").trim }] ∧
     (handleProductUpload sampleSvcOk [sampleUrl] initialState).error = none) := by
  have h1 : describeProduct sampleSvcFail sampleUrl = Except.error "boom" := rfl
  have h2 : [sampleUrl].map (describeProduct sampleSvcOk)
      = [({ src := sampleUrl, description := ("a red sofa").trim } : CatalogEntry)].map Except.ok := rfl
  exact ⟨⟨sampleUrl, List.mem_singleton.mpr rfl, "boom", h1⟩,
    (product_upload_batch_atomic sampleSvcFail [sampleUrl] initialState).1
      ⟨sampleUrl, List.mem_singleton.mpr rfl, "boom", h1⟩,
    h2,
    (product_upload_batch_atomic sampleSvcOk [sampleUrl] initialState).2 _ h2⟩

/-- C5: when the guard passes but harmonize fails for any reason (canvas
context or base image unavailable, a product image failing to load, the
generation request rejecting, or the response lacking an inline-image
part), the display image and the placements are left exactly as they
were, the loading indicator is cleared, and the harmonize error message
is surfaced. -/
theorem harmonize_failure_preserves_state (env : HarmonizeEnv) (s : AppState)
    (hd : strFalsy s.displayImage = false) (hp : s.placedProducts ≠ [])
    (hfail : env.ctxAvailable = false ∨ env.imageRefSet = false ∨
      (∃ p ∈ s.placedProducts, env.loadOk p.src = false) ∨
      (∃ e, env.genResponse = Except.error e) ∨
      (∃ parts, env.genResponse = Except.ok parts ∧
        parts.find? (fun part => part.inlineData.isSome) = none)) :
    (handleHarmonize env s).1.displayImage = s.displayImage ∧
    (handleHarmonize env s).1.placedProducts = s.placedProducts ∧
    (handleHarmonize env s).1.isLoading = false ∧
    (handleHarmonize env s).1.error = some harmonizeFailMsg := by
  have hpe : s.placedProducts.isEmpty = false := by
    cases hl : s.placedProducts with
    | nil => exact absurd hl hp
    | cons a l => rfl
  by_cases hctx : (env.ctxAvailable && env.imageRefSet) = true
  · by_cases hall : (s.placedProducts.all fun p => env.loadOk p.src) = true
    · rcases hfail with h | h | ⟨p, hpmem, hpl⟩ | ⟨e, he⟩ | ⟨parts, hparts, hfind⟩
      · rw [Bool.and_eq_true] at hctx
        exact absurd h (by simp [hctx.1])
      · rw [Bool.and_eq_true] at hctx
        exact absurd h (by simp [hctx.2])
      · rw [List.all_eq_true] at hall
        exact absurd (hall p hpmem) (by simp [hpl])
      · simp [handleHarmonize, hd, hpe, hctx, hall, he]
      · simp [handleHarmonize, hd, hpe, hctx, hall, hparts, hfind]
    · simp only [Bool.not_eq_true] at hall
      simp [handleHarmonize, hd, hpe, hctx, hall]
  · simp only [Bool.not_eq_true] at hctx
    simp [handleHarmonize, hd, hpe, hctx]

/-- Witness for C5: the generation request rejects; the session keeps its
display image and its one placement. -/
theorem harmonize_failure_preserves_state_witness :
    strFalsy sampleState.displayImage = false ∧
    sampleState.placedProducts ≠ [] ∧
    sampleEnvFail.genResponse = Except.error "network" ∧
    ((handleHarmonize sampleEnvFail sampleState).1.displayImage = sampleState.displayImage ∧
     (handleHarmonize sampleEnvFail sampleState).1.placedProducts = sampleState.placedProducts ∧
     (handleHarmonize sampleEnvFail sampleState).1.isLoading = false ∧
     (handleHarmonize sampleEnvFail sampleState).1.error = some harmonizeFailMsg) :=
  ⟨rfl, by simp [sampleState], rfl,
   harmonize_failure_preserves_state sampleEnvFail sampleState rfl
     (by simp [sampleState])
     (Or.inr (Or.inr (Or.inr (Or.inl ⟨"network", rfl⟩))))⟩

/-- C8 (counterexample): dropping a 300x200 product at point (100, 100)
creates a placement of height 100 at `y = 75`, while vertical centering
would demand `y = 100 - 100 / 2 = 50`: the drop point offset is a quarter
of the height, not half. -/
theorem drop_centering_counterexample :
    (handleDrop 1 "imgP" "a chair" 100 100 0 0 300 200 initialState).placedProducts.map
        Product.height = [100] ∧
    (handleDrop 1 "imgP" "a chair" 100 100 0 0 300 200 initialState).placedProducts.map
        Product.y = [75] ∧
    (75 : ℚ) ≠ 100 - 100 / 2 := by
  refine ⟨?_, ?_, by norm_num⟩ <;>
    norm_num [handleDrop, newProductOfDrop, initialState]

/-- C8 (amended): a drop creates a placement with
`aspectRatio = naturalWidth / naturalHeight`, width 150 and height
`150 / aspectRatio`, appended to the collection; it is centered
horizontally under the drop point (`x = px - width / 2`) but offset
vertically by only a quarter of its height (`y = py - height / 4`). -/
theorem drop_geometry_amended (now : Nat) (src desc : String)
    (clientX clientY rectLeft rectTop imgWidth imgHeight : ℚ) (s : AppState) :
    (handleDrop now src desc clientX clientY rectLeft rectTop imgWidth imgHeight
        s).placedProducts
      = s.placedProducts ++
        [newProductOfDrop now src desc clientX clientY rectLeft rectTop imgWidth imgHeight] ∧
    (newProductOfDrop now src desc clientX clientY rectLeft rectTop imgWidth
        imgHeight).aspectRatio = imgWidth / imgHeight ∧
    (newProductOfDrop now src desc clientX clientY rectLeft rectTop imgWidth
        imgHeight).width = 150 ∧
    (newProductOfDrop now src desc clientX clientY rectLeft rectTop imgWidth
        imgHeight).height
      = 150 / (newProductOfDrop now src desc clientX clientY rectLeft rectTop
          imgWidth imgHeight).aspectRatio ∧
    (newProductOfDrop now src desc clientX clientY rectLeft rectTop imgWidth
        imgHeight).x
      = (clientX - rectLeft) - (newProductOfDrop now src desc clientX clientY
          rectLeft rectTop imgWidth imgHeight).width / 2 ∧
    (newProductOfDrop now src desc clientX clientY rectLeft rectTop imgWidth
        imgHeight).y
      = (clientY - rectTop) - (newProductOfDrop now src desc clientX clientY
          rectLeft rectTop imgWidth imgHeight).height / 4 := by
  refine ⟨rfl, rfl, rfl, rfl, ?_, ?_⟩
  · simp only [newProductOfDrop]
    norm_num
  · simp only [newProductOfDrop]
    ring

/-- C9 (counterexample): two products dropped at the same `Date.now()`
millisecond reading (5) are distinct placements sharing the same id, so
ids are neither unique nor strictly increasing. -/
theorem placement_ids_counterexample :
    (runDrops [sampleDropA, sampleDropB] initialState).placedProducts.map
        Product.src = ["imgA", "imgB"] ∧
    (runDrops [sampleDropA, sampleDropB] initialState).placedProducts.map
        Product.id = [5, 5] ∧
    ¬ ((runDrops [sampleDropA, sampleDropB] initialState).placedProducts.map
        Product.id).Pairwise (· ≠ ·) := by
  have h2 : (runDrops [sampleDropA, sampleDropB] initialState).placedProducts.map
      Product.id = [5, 5] := by
    simp [runDrops, handleDrop, newProductOfDrop, initialState, sampleDropA, sampleDropB]
  refine ⟨?_, h2, ?_⟩
  · simp [runDrops, handleDrop, newProductOfDrop, initialState, sampleDropA, sampleDropB]
  · rw [h2]
    intro h
    exact (List.pairwise_cons.mp h).1 5 (List.mem_singleton.mpr rfl) rfl

/-- The ids of a run of drops are the clock readings of the events. -/
theorem map_id_dropEventProduct (events : List DropEvent) :
    (events.map dropEventProduct).map Product.id = events.map DropEvent.now := by
  induction events with
  | nil => rfl
  | cons e es ih => simp only [List.map_cons, ih, dropEventProduct_id]

/-- C9 (amended): each placement id equals the `Date.now()` clock reading
of its drop; when successive drops happen at strictly increasing clock
readings (distinct milliseconds), the ids in the session are pairwise
distinct and strictly increase in creation order. -/
theorem placement_ids_amended (events : List DropEvent)
    (h : (events.map DropEvent.now).Pairwise (· < ·)) :
    (runDrops events initialState).placedProducts.map Product.id
        = events.map DropEvent.now ∧
    ((runDrops events initialState).placedProducts.map Product.id).Pairwise (· < ·) ∧
    ((runDrops events initialState).placedProducts.map Product.id).Pairwise (· ≠ ·) := by
  have hids : (runDrops events initialState).placedProducts.map Product.id
      = events.map DropEvent.now := by
    rw [runDrops_placedProducts]
    have hinit : initialState.placedProducts = [] := rfl
    rw [hinit, List.nil_append, map_id_dropEventProduct]
  refine ⟨hids, ?_, ?_⟩
  · rw [hids]; exact h
  · rw [hids]; exact h.imp fun hlt => Nat.ne_of_lt hlt

/-- Witness for C9 (amended): drops at clock readings 5 and 7. -/
theorem placement_ids_amended_witness :
    ([sampleDropA, sampleDropC].map DropEvent.now).Pairwise (· < ·) ∧
    ((runDrops [sampleDropA, sampleDropC] initialState).placedProducts.map Product.id
        = [sampleDropA, sampleDropC].map DropEvent.now ∧
     ((runDrops [sampleDropA, sampleDropC] initialState).placedProducts.map
        Product.id).Pairwise (· < ·) ∧
     ((runDrops [sampleDropA, sampleDropC] initialState).placedProducts.map
        Product.id).Pairwise (· ≠ ·)) :=
  ⟨by simp [sampleDropA, sampleDropC, List.pairwise_cons],
   placement_ids_amended [sampleDropA, sampleDropC]
     (by simp [sampleDropA, sampleDropC, List.pairwise_cons])⟩

end InteriorAI
